import Mathlib

/-!
# Verification of the tactical-robml serial link manager and autonomous navigator

Shallow embedding of the core logic of the repository:

* `config.py` — numeric thresholds (`OBSTACLE_STOP_DISTANCE`,
  `OBSTACLE_WARN_DISTANCE`, `MAX_RECONNECT_TRIES`, `IMU_FLIP_THRESHOLD`);
* `modules/hardware/serial_comm.py` — `ArduinoController` (current
  generation): `send_motor_command`, `_watchdog` reconnect supervision,
  `_query_motor`, `get_distance_front`;
* `modules/serial_comm.py` — legacy `ArduinoController`:
  `send_motor_command`, `get_distance`;
* `modules/hardware/imu.py` — `IMUMonitor._poll_loop` flip detection;
* `modules/system/autonomous.py` — `AutonomousNavigator`
  (`start`, `stop`, `_explore_loop`, `_handle_front_obstacle`);
* `modules/autonomous.py` — legacy `AutonomousController`
  (`start`, `stop`, `_explore_mode`).

Python floats that only ever hold sensor angles are modelled as rationals;
sensor distances parsed with `int(...)` are modelled as integers.  Stateful
methods are modelled as explicit state-passing functions that also return
the list of motor commands written to the serial link, so that temporal
statements ("issues STOP before any FORWARD") become statements about
command traces.
-/

namespace TacticalRobml

/-! ## Python string primitives

Lean core's `String.toUpper`, `String.startsWith`, `String.splitOn` and
`String.toInt?` do not reduce inside the kernel (they are written against
byte positions with well-founded recursion), so the Python string
operations used by the source are modelled directly on character lists. -/

/-- Python `str.upper()` restricted to the ASCII command strings the source
uses. -/
def pyUpper (s : String) : String := String.mk (s.data.map Char.toUpper)

/-- Python `str.startswith(pre)`. -/
def pyStartsWith (s pre : String) : Bool := pre.data.isPrefixOf s.data

/-- Helper for `pySplit`: splits a character list at every separator. -/
def splitAux (sep : Char) : List Char → List Char → List (List Char)
  | [], acc => [acc.reverse]
  | c :: cs, acc =>
    if c = sep then acc.reverse :: splitAux sep cs []
    else splitAux sep cs (c :: acc)

/-- Python `str.split(sep)` for a one-character separator. -/
def pySplit (s : String) (sep : Char) : List String :=
  (splitAux sep s.data []).map String.mk

/-- Numeric value of an ASCII digit, `none` on any other character. -/
def digitVal (c : Char) : Option ℕ :=
  if '0' ≤ c ∧ c ≤ '9' then some (c.toNat - '0'.toNat) else none

/-- Decimal value of a non-empty digit string, `none` if empty or if any
character is not a digit. -/
def digitsToNat : List Char → Option ℕ
  | [] => none
  | cs => cs.foldlM (fun acc c => (digitVal c).map (fun d => acc * 10 + d)) 0

/-- Python `int(s)` on the decimal strings the wire protocol carries:
`none` models the `ValueError` Python raises on malformed input. -/
def pyInt (s : String) : Option ℤ :=
  match s.data with
  | '-' :: cs => (digitsToNat cs).map (fun n => -(n : ℤ))
  | cs => (digitsToNat cs).map (fun n => (n : ℤ))

/-! ## Configuration constants (config.py) -/

/-- `OBSTACLE_STOP_DISTANCE = 25` (cm), config.py. -/
def OBSTACLE_STOP_DISTANCE : ℤ := 25

/-- `OBSTACLE_WARN_DISTANCE = 40` (cm), config.py. -/
def OBSTACLE_WARN_DISTANCE : ℤ := 40

/-- `MAX_RECONNECT_TRIES = 10`, config.py. -/
def MAX_RECONNECT_TRIES : ℕ := 10

/-- `IMU_FLIP_THRESHOLD = 60` (degrees), config.py. -/
def IMU_FLIP_THRESHOLD : ℚ := 60

/-! ## SafetyMonitor flip detection (modules/hardware/imu.py)

`IMUMonitor._poll_loop` computes
`self.is_flipped = abs(self.pitch) > IMU_FLIP_THRESHOLD or
                   abs(self.roll) > IMU_FLIP_THRESHOLD`. -/

/-- `is_flipped` as computed by `IMUMonitor._poll_loop` from the latest
pitch/roll reading. -/
def is_flipped (pitch roll : ℚ) : Bool :=
  decide (|pitch| > IMU_FLIP_THRESHOLD) || decide (|roll| > IMU_FLIP_THRESHOLD)

/-! ## Link send (both generations of `ArduinoController.send_motor_command`)

The serial write is modelled by an environment bit `writeOk`: `false` means
`self.motor_serial.write(...)` raises.  The outcome records the returned
boolean, the connection flag after the call, and the line written to the
transport (`none` when the transport was never touched). -/

/-- Outcome of one `send_motor_command` call. -/
structure SendOutcome where
  result : Bool
  connectedAfter : Bool
  written : Option String
deriving Repr, DecidableEq

/-- `ArduinoController.send_motor_command` from
`modules/hardware/serial_comm.py`: returns `False` at once when not
connected; writes `f"{command}\n"`; on a write exception logs, sets
`self.motor_connected = False` and returns `False`. -/
def send_motor_command_hw (connected : Bool) (writeOk : Bool) (command : String) :
    SendOutcome :=
  if connected = false then ⟨false, false, none⟩
  else if writeOk then ⟨true, true, some (command ++ "\n")⟩
  else ⟨false, false, some (command ++ "\n")⟩

/-- `ArduinoController.send_motor_command` from the legacy
`modules/serial_comm.py`: returns `False` at once when not connected;
writes `f"{command}\n"`; on a write exception prints and returns `False`
but leaves `self.motor_connected` unchanged (still `True`). -/
def send_motor_command_legacy (connected : Bool) (writeOk : Bool) (command : String) :
    SendOutcome :=
  if connected = false then ⟨false, false, none⟩
  else if writeOk then ⟨true, true, some (command ++ "\n")⟩
  else ⟨false, true, some (command ++ "\n")⟩

/-! ## Navigator state (modules/system/autonomous.py) -/

/-- Mutable state of `AutonomousNavigator` relevant to start/stop:
`_running`, `_mode`, `current_action`. -/
structure NavState where
  running : Bool
  mode : String
  currentAction : String
deriving Repr, DecidableEq

/-- `AutonomousNavigator.MODES = ("EXPLORE", "PATROL")`. -/
def MODES : List String := ["EXPLORE", "PATROL"]

/-- `AutonomousNavigator.stop`: sets `_running = False`, sends `"STOP"`,
sets `current_action = "IDLE"`.  Returns the new state and the motor
commands sent. -/
def stop_nav (s : NavState) : NavState × List String :=
  (⟨false, s.mode, "IDLE"⟩, ["STOP"])

/-- Mode normalisation in `AutonomousNavigator.start`:
`mode = mode.upper()`; `if mode not in self.MODES: mode = "EXPLORE"`. -/
def normalizeMode (mode : String) : String :=
  let m := pyUpper mode
  if m ∈ MODES then m else "EXPLORE"

/-- `AutonomousNavigator.start(mode)`: returns `False` when the motor link
is down; normalises the mode; under the lock returns `True` at once when
already `_running`; otherwise records the mode, sets `_running = True`,
launches the control-loop thread and returns `True`.  Result is
`(returned value, new state, whether a control loop was launched)`. -/
def start_nav (motorConnected : Bool) (s : NavState) (mode : String) :
    Bool × NavState × Bool :=
  if motorConnected = false then (false, s, false)
  else
    let m := normalizeMode mode
    if s.running then (true, s, false)
    else (true, ⟨true, m, s.currentAction⟩, true)

/-! ## Legacy controller state (modules/autonomous.py) -/

/-- Mutable state of the legacy `AutonomousController` relevant to
start/stop: `running`, `patrol_mode`. -/
structure CtrlState where
  running : Bool
  patrolMode : String
deriving Repr, DecidableEq

/-- Legacy `AutonomousController.stop`: `if not self.running: return`
(no command sent, state untouched); otherwise clears `running`, joins the
thread and sends `'S'`. -/
def stop_ctrl (c : CtrlState) : CtrlState × List String :=
  if c.running = false then (c, [])
  else (⟨false, c.patrolMode⟩, ["S"])

/-- Legacy `AutonomousController.start(mode)`: returns `False` when
already running; returns `False` when the motor link is down; otherwise
records the mode, sets `running = True`, launches the loop thread and
returns `True`. -/
def start_ctrl (motorConnected : Bool) (c : CtrlState) (mode : String) :
    Bool × CtrlState × Bool :=
  if c.running then (false, c, false)
  else if motorConnected = false then (false, c, false)
  else (true, ⟨true, mode⟩, true)

/-! ## EXPLORE control cycle (modules/system/autonomous.py)

One iteration of `AutonomousNavigator._explore_loop` is modelled as the
trace of motor commands it writes via `send_motor_command`, each paired
with the SafetyMonitor flags (`IMUMonitor.is_flipped` /
`collision_detected`) current at the instant the command is written.  The
IMU flags are maintained by a separate `IMUMonitor` thread polling every
0.1 s, so they may change at every point where the navigator sleeps or
blocks on serial I/O; the environment function `env` gives the flags at
the successive sampling points of the cycle:

* `env 0` — the flags read by `_check_safety_halt` at the top of the cycle;
* `env 1` — the flags after the blocking `get_all_distances` query, when
  the first command of the chosen branch is written;
* `env 2`, `env 3`, `env 4` — the flags after each subsequent
  `time.sleep` inside `_handle_front_obstacle` / `_turn_left` /
  `_turn_right` (the turn command follows the third STOP with no sleep in
  between, so it samples the same flags as that STOP). -/

/-- Flip/collision flags exposed by `IMUMonitor`. -/
structure ImuFlags where
  flipped : Bool
  collision : Bool
deriving Repr, DecidableEq

/-- A flag state is unsafe when either flip or collision is detected. -/
def unsafeFlags (f : ImuFlags) : Bool := f.flipped || f.collision

/-- Motion commands in the sense of the spec: everything the navigator
sends except `"STOP"`. -/
def isMotionCommand (cmd : String) : Bool :=
  decide (cmd ∈ ["FORWARD", "BACKWARD", "LEFT", "RIGHT", "SLOW"])

/-- Turn-direction choice inside
`AutonomousNavigator._handle_front_obstacle`:
`if self.dist_left > self.dist_right: self._turn_left(...) else:
self._turn_right(...)`.  The drawn turn duration is random but the
direction is a pure function of the two side distances. -/
def chooseTurn (distLeft distRight : ℤ) : String :=
  if distLeft > distRight then "LEFT" else "RIGHT"

/-- Turn-direction choice in the legacy
`AutonomousController._explore_mode`:
`turn_direction = random.choice(['L', 'R'])`.  The random draw is
modelled by the boolean `coin` (`true` picks `'L'`); the measured
distance plays no part. -/
def chooseTurn_legacy (coin : Bool) : String := if coin then "L" else "R"

/-- Commands written during one iteration of
`AutonomousNavigator._explore_loop`, paired with the IMU flags sampled at
each write (see the section comment for the sampling points).  Branches in
source order: safety halt on flip, safety halt on collision, front
obstacle (`0 < front < OBSTACLE_STOP_DISTANCE` runs
`_handle_front_obstacle`), left obstacle (`_turn_right(0.4)`), right
obstacle (`_turn_left(0.4)`), warn zone (`SLOW`), clear (`FORWARD`). -/
def exploreCycle (env : ℕ → ImuFlags) (front left right : ℤ) :
    List (ImuFlags × String) :=
  if (env 0).flipped then [(env 0, "STOP")]
  else if (env 0).collision then [(env 0, "STOP")]
  else if 0 < front ∧ front < OBSTACLE_STOP_DISTANCE then
    [(env 1, "STOP"), (env 2, "BACKWARD"), (env 3, "STOP"),
     (env 3, chooseTurn left right), (env 4, "STOP")]
  else if 0 < left ∧ left < OBSTACLE_STOP_DISTANCE then
    [(env 1, "RIGHT"), (env 2, "STOP")]
  else if 0 < right ∧ right < OBSTACLE_STOP_DISTANCE then
    [(env 1, "LEFT"), (env 2, "STOP")]
  else if 0 < front ∧ front < OBSTACLE_WARN_DISTANCE then
    [(env 1, "SLOW")]
  else
    [(env 1, "FORWARD")]

/-- Command trace of one explore-loop iteration when the safety flags stay
clear for the whole cycle. -/
def exploreCmds (front left right : ℤ) : List String :=
  (exploreCycle (fun _ => ⟨false, false⟩) front left right).map Prod.snd

/-- An environment in which the IMU reports safe at the top-of-cycle
check and flipped at every later sampling point of the same cycle
(realisable, since the IMU thread polls every 0.1 s while the maneuver
sleeps for several tenths of a second between commands). -/
def envFlipMidManeuver : ℕ → ImuFlags := fun n =>
  if n = 0 then ⟨false, false⟩ else ⟨true, false⟩

/-- In one explore cycle, every occurrence of `"FORWARD"` is preceded by
an earlier `"STOP"` in the same trace. -/
def stopPrecedesForward (cmds : List String) : Prop :=
  ∀ n, cmds.get? n = some "FORWARD" →
    ∃ m, m < n ∧ cmds.get? m = some "STOP"

/-! ## Reconnect supervision (modules/hardware/serial_comm.py)

`_watchdog` runs forever: every `RECONNECT_INTERVAL` seconds, when a link
is disconnected and its reconnect counter is still below
`MAX_RECONNECT_TRIES`, it increments the counter and calls
`_connect_motor` / `_connect_servo`; a successful connect sets
`connected = True` and resets the counter to 0, a failed one leaves
`connected = False` with the incremented counter.  Listener and send
errors set `connected = False` without touching the counter. -/

/-- Per-link state: `motor_connected` / `_motor_reconnect_count` (and the
servo twins, which follow identical code). -/
structure LinkState where
  connected : Bool
  reconnectCount : ℕ
deriving Repr, DecidableEq

/-- Events that mutate a link's state: one `_watchdog` wake-up (with the
environment deciding whether `serial.Serial(...)` succeeds), or an I/O
error in a listener thread or in `send_*_command`. -/
inductive LinkEvent where
  | watchdogTick (connectOk : Bool)
  | ioFailure
deriving Repr, DecidableEq

/-- Whether one `_watchdog` wake-up makes a reconnect attempt for this
link: `if not self.motor_connected and self._motor_reconnect_count <
MAX_RECONNECT_TRIES`. -/
def watchdogAttempts (s : LinkState) : Bool :=
  decide (s.connected = false ∧ s.reconnectCount < MAX_RECONNECT_TRIES)

/-- Effect of one `_watchdog` wake-up on the link state: when an attempt
is due, the counter is incremented and `_connect_motor` runs —
`connectOk = true` models a successful `serial.Serial` open (which sets
`connected = True` and `count = 0`), `false` a raised exception. -/
def watchdogTick (connectOk : Bool) (s : LinkState) : LinkState :=
  if s.connected = false ∧ s.reconnectCount < MAX_RECONNECT_TRIES then
    if connectOk then ⟨true, 0⟩ else ⟨false, s.reconnectCount + 1⟩
  else s

/-- One event's effect on the link state. -/
def linkStep (e : LinkEvent) (s : LinkState) : LinkState :=
  match e with
  | .watchdogTick ok => watchdogTick ok s
  | .ioFailure => ⟨false, s.reconnectCount⟩

/-- State after a sequence of events. -/
def runEvents (evs : List LinkEvent) (s : LinkState) : LinkState :=
  evs.foldl (fun st e => linkStep e st) s

/-- State right after `ArduinoController.__init__`: the counter field is
initialised to 0, the connection flag to the outcome of the initial
connect. -/
def initLinkState (connected0 : Bool) : LinkState := ⟨connected0, 0⟩

/-! ## Query/response correlation (both generations)

`_query_motor` (hardware generation) and the inline loop of the legacy
`get_distance` share one shape: drain the stale response queue, send the
command, then poll the queue until a line with the expected text arrives
or `time.time()` passes `deadline = time.time() + timeout`, sleeping
`0.01` s per iteration.  Each poll iteration pops at most one line and
discards it if it lacks the expected text at the start.  The inbound
traffic is modelled by a `schedule`: `schedule[i]` is the batch of lines
the listener thread enqueues during the `i`-th poll interval, and
`schedule.length` is the number of poll iterations that fit before the
deadline (`⌈timeout / 0.01⌉`), so running out of `schedule` is exactly
the deadline passing. -/

/-- Value returned by the poll loop of `_query_motor`: first argument is
the remaining poll schedule, second the current queue contents. -/
def queryPollResult (pfx : String) : List (List String) → List String → Option String
  | [], _ => none
  | batch :: rest, q =>
    match q ++ batch with
    | [] => queryPollResult pfx rest []
    | line :: q' =>
      if pyStartsWith line pfx then some line
      else queryPollResult pfx rest q'

/-- Number of poll iterations the same loop executes before returning —
the loop's wall-clock cost in units of the 0.01 s poll interval. -/
def queryPollTicks (pfx : String) : List (List String) → List String → ℕ
  | [], _ => 0
  | batch :: rest, q =>
    match q ++ batch with
    | [] => queryPollTicks pfx rest [] + 1
    | line :: q' =>
      if pyStartsWith line pfx then 1
      else queryPollTicks pfx rest q' + 1

/-- `ArduinoController._query_motor` (hardware generation): `None` at once
when not connected; otherwise drains the stale queue (hence the poll loop
starts from `[]`) and polls. -/
def query_motor (connected : Bool) (pfx : String) (schedule : List (List String)) :
    Option String :=
  if connected = false then none
  else queryPollResult pfx schedule []

/-- `int(resp.split(":")[1])` as used by the distance getters: `none`
models a raised `IndexError`/`ValueError`. -/
def parseIntField (resp : String) : Option ℤ :=
  ((pySplit resp ':').get? 1).bind pyInt

/-- `ArduinoController.get_distance_front` (hardware generation):
`resp = self._query_motor("DF", "DIST_F:")`;
`return int(resp.split(":")[1]) if resp else 0`.  The parse is not
guarded by a `try`, so a malformed response raises — modelled by
`none`. -/
def get_distance_front (connected : Bool) (schedule : List (List String)) :
    Option ℤ :=
  match query_motor connected "DIST_F:" schedule with
  | some resp => parseIntField resp
  | none => some 0

/-- Legacy `ArduinoController.get_distance` (modules/serial_comm.py):
returns 0 when not connected; drains the queue, sends `'D'`, polls for a
line starting with `'DIST:'`; returns the parsed value, and 0 on timeout
or on any exception (the whole body is wrapped in `try/except`). -/
def get_distance (connected : Bool) (schedule : List (List String)) : ℤ :=
  if connected = false then 0
  else
    match queryPollResult "DIST:" schedule [] with
    | some resp => (parseIntField resp).getD 0
    | none => 0

/-! ## Theorems -/

/-- Claim C8: the SafetyMonitor flipped flag is true if and only if
`|pitch| > IMU_FLIP_THRESHOLD` or `|roll| > IMU_FLIP_THRESHOLD`, with
strict inequality: a reading with one magnitude exactly at the threshold
and the other below it yields `flipped = false`. -/
theorem C8_flipped_iff_strict (pitch roll : ℚ) :
    (is_flipped pitch roll = true ↔
      |pitch| > IMU_FLIP_THRESHOLD ∨ |roll| > IMU_FLIP_THRESHOLD) ∧
    (|pitch| = IMU_FLIP_THRESHOLD → |roll| < IMU_FLIP_THRESHOLD →
      is_flipped pitch roll = false) ∧
    (|roll| = IMU_FLIP_THRESHOLD → |pitch| < IMU_FLIP_THRESHOLD →
      is_flipped pitch roll = false) := by
  refine ⟨by simp [is_flipped], ?_, ?_⟩
  · intro h1 h2
    simp [is_flipped, not_lt.mpr h1.le, not_lt.mpr h2.le]
  · intro h1 h2
    simp [is_flipped, not_lt.mpr h1.le, not_lt.mpr h2.le]

/-- Witness for C8 at the boundary reading pitch = 60, roll = 0 (exactly
at threshold → not flipped) and at pitch = 61 (just past → flipped). -/
theorem C8_flipped_iff_strict_witness :
    is_flipped 60 0 = false ∧ is_flipped 61 0 = true := by
  constructor
  · exact (C8_flipped_iff_strict 60 0).2.1 (by simp [IMU_FLIP_THRESHOLD])
      (by simp [IMU_FLIP_THRESHOLD])
  · exact (C8_flipped_iff_strict 61 0).1.mpr
      (Or.inl (by simp [IMU_FLIP_THRESHOLD]; norm_num))

/-- Claim C5, counterexample: the legacy
`ArduinoController.send_motor_command` (modules/serial_comm.py), on a
write that raises with the link connected, returns `False` but leaves
`motor_connected = True` — it does not flip the flag to false as the
claim states for every Link. -/
theorem C5_counterexample :
    (send_motor_command_legacy true false "F").result = false ∧
    ¬ (send_motor_command_legacy true false "F").connectedAfter = false := by
  decide

/-- Claim C5 as amended: for every command text, both generations of
`send_motor_command` fail immediately with `False` and never touch the
transport when the link is not connected; on a write error the
hardware-generation controller returns `False` and flips
`connected = false`, while the legacy controller returns `False` but
leaves `connected` unchanged; a successful send writes the single
terminated line `command + "\n"`. -/
theorem C5_send_behaviour (command : String) (writeOk : Bool) :
    send_motor_command_hw false writeOk command = ⟨false, false, none⟩ ∧
    send_motor_command_legacy false writeOk command = ⟨false, false, none⟩ ∧
    (send_motor_command_hw true false command).result = false ∧
    (send_motor_command_hw true false command).connectedAfter = false ∧
    (send_motor_command_legacy true false command).result = false ∧
    (send_motor_command_legacy true false command).connectedAfter = true ∧
    send_motor_command_hw true true command =
      ⟨true, true, some (command ++ "\n")⟩ := by
  simp [send_motor_command_hw, send_motor_command_legacy]

/-- Claim C6, counterexample: the legacy `AutonomousController.stop`
(modules/autonomous.py), called when not running, returns immediately: the
state is unchanged but no STOP (`'S'`) command is issued, contrary to the
claim that stop still issues STOP when already idle. -/
theorem C6_counterexample :
    (stop_ctrl ⟨false, "explore"⟩).1 = ⟨false, "explore"⟩ ∧
    (stop_ctrl ⟨false, "explore"⟩).2 = ([] : List String) ∧
    "S" ∉ (stop_ctrl ⟨false, "explore"⟩).2 := by
  decide

/-- Claim C6 as amended: `AutonomousNavigator.stop` is idempotent — when
already IDLE (not running, action `"IDLE"`) it leaves the state unchanged
and still issues STOP, and from any state it clears `running` and
unconditionally issues STOP; the legacy `AutonomousController.stop`,
when already stopped, returns with the state unchanged but without
issuing any command, and only issues `'S'` when stopping an active
run. -/
theorem C6_stop_idempotent (s : NavState) (c : CtrlState) :
    (s.running = false → s.currentAction = "IDLE" → stop_nav s = (s, ["STOP"])) ∧
    (stop_nav s).1.running = false ∧
    (stop_nav s).2 = ["STOP"] ∧
    (c.running = true → stop_ctrl c = (⟨false, c.patrolMode⟩, ["S"])) ∧
    (c.running = false → stop_ctrl c = (c, [])) := by
  obtain ⟨r, m, a⟩ := s
  obtain ⟨cr, cm⟩ := c
  refine ⟨?_, rfl, rfl, ?_, ?_⟩
  · intro h1 h2
    subst h1; subst h2; rfl
  · intro h; subst h; rfl
  · intro h; subst h; rfl

/-- Witness for C6 at the already-idle navigator state and an active
legacy controller. -/
theorem C6_stop_idempotent_witness :
    stop_nav ⟨false, "EXPLORE", "IDLE"⟩ = (⟨false, "EXPLORE", "IDLE"⟩, ["STOP"]) ∧
    stop_ctrl ⟨true, "patrol"⟩ = (⟨false, "patrol"⟩, ["S"]) := by
  exact ⟨(C6_stop_idempotent ⟨false, "EXPLORE", "IDLE"⟩ ⟨true, "patrol"⟩).1 rfl rfl,
         (C6_stop_idempotent ⟨false, "EXPLORE", "IDLE"⟩ ⟨true, "patrol"⟩).2.2.2.1 rfl⟩

/-- Claim C7, counterexample: `AutonomousNavigator.start` (the generation
wired up by app.py), called with the motor link connected while a run is
already active, returns `True` — not `False` as the claim states. -/
theorem C7_counterexample :
    ¬ (start_nav true ⟨true, "EXPLORE", "FORWARD"⟩ "EXPLORE").1 = false := by
  decide

/-- Claim C7 as amended: `start(mode)` fails (returns false, state
untouched, no loop launched) if the motor Link is disconnected; when a
run is already active, `AutonomousNavigator.start` returns true without
changing state or launching a second loop (only the legacy
`AutonomousController.start` returns false there); otherwise it
transitions IDLE → normalised mode, launches the control loop and returns
true. -/
theorem C7_start_gating (s : NavState) (c : CtrlState) (mode : String) :
    start_nav false s mode = (false, s, false) ∧
    (s.running = true → start_nav true s mode = (true, s, false)) ∧
    (s.running = false →
      start_nav true s mode = (true, ⟨true, normalizeMode mode, s.currentAction⟩, true)) ∧
    (c.running = true → start_ctrl true c mode = (false, c, false)) ∧
    (c.running = false → start_ctrl false c mode = (false, c, false)) ∧
    (c.running = false → start_ctrl true c mode = (true, ⟨true, mode⟩, true)) := by
  refine ⟨rfl, ?_, ?_, ?_, ?_, ?_⟩ <;> intro h <;> simp [start_nav, start_ctrl, h]

/-- Witness for C7: an already-running navigator start returns true, an
already-running legacy controller start returns false, and an idle start
launches the loop. -/
theorem C7_start_gating_witness :
    start_nav true ⟨true, "EXPLORE", "FORWARD"⟩ "PATROL" =
      (true, ⟨true, "EXPLORE", "FORWARD"⟩, false) ∧
    start_ctrl true ⟨true, "explore"⟩ "patrol" = (false, ⟨true, "explore"⟩, false) ∧
    start_nav true ⟨false, "EXPLORE", "IDLE"⟩ "PATROL" =
      (true, ⟨true, "PATROL", "IDLE"⟩, true) := by
  refine ⟨(C7_start_gating ⟨true, "EXPLORE", "FORWARD"⟩ ⟨true, "explore"⟩ "PATROL").2.1 rfl,
          (C7_start_gating ⟨true, "EXPLORE", "FORWARD"⟩ ⟨true, "explore"⟩ "patrol").2.2.2.1 rfl,
          ?_⟩
  have h := (C7_start_gating ⟨false, "EXPLORE", "IDLE"⟩ ⟨true, "explore"⟩ "PATROL").2.2.1 rfl
  rw [h]
  decide

/-- Claim C10: `AutonomousNavigator.start` called (motor link up, not
already running) with a mode string that upper-cases to something outside
`MODES` does not fail because of the mode: it silently falls back to
EXPLORE and launches the control loop, returning true. -/
theorem C10_mode_fallback (s : NavState) (mode : String)
    (h1 : s.running = false) (h2 : pyUpper mode ∉ MODES) :
    start_nav true s mode = (true, ⟨true, "EXPLORE", s.currentAction⟩, true) := by
  simp [start_nav, normalizeMode, h1, h2]

/-- Witness for C10 at the unknown mode string `"wander"`. -/
theorem C10_mode_fallback_witness :
    start_nav true ⟨false, "EXPLORE", "IDLE"⟩ "wander" =
      (true, ⟨true, "EXPLORE", "IDLE"⟩, true) := by
  exact C10_mode_fallback ⟨false, "EXPLORE", "IDLE"⟩ "wander" rfl (by decide)

/-- Claim C9, counterexample: in the legacy
`AutonomousController._explore_mode`, the avoidance turn direction is
drawn by `random.choice(['L', 'R'])`: two runs on identical sensor inputs
can turn opposite ways, so the direction is neither determined by the
side clearances nor the same for identical inputs. -/
theorem C9_counterexample :
    ¬ (∀ coin1 coin2 : Bool, chooseTurn_legacy coin1 = chooseTurn_legacy coin2) := by
  decide

/-- Claim C9 as amended: in `AutonomousNavigator._handle_front_obstacle`
the turn direction is the side with strictly greater measured clearance
(an exact tie turns right), a pure function of the two side distances —
the same direction for identical inputs; in the scenario front = 15,
left = 50, right = 30 (thresholds 25/40) the avoidance maneuver fires and
turns left.  The legacy controller instead draws the direction at
random. -/
theorem C9_turn_direction (distLeft distRight : ℤ) :
    (distLeft > distRight → chooseTurn distLeft distRight = "LEFT") ∧
    (distRight > distLeft → chooseTurn distLeft distRight = "RIGHT") ∧
    exploreCmds 15 50 30 = ["STOP", "BACKWARD", "STOP", "LEFT", "STOP"] := by
  refine ⟨?_, ?_, by decide⟩
  · intro h; simp [chooseTurn, h]
  · intro h; simp [chooseTurn, not_lt.mpr h.le]

/-- Witness for C9 at clearances 50 > 30 (turn left) and 30 < 50 (turn
right). -/
theorem C9_turn_direction_witness :
    chooseTurn 50 30 = "LEFT" ∧ chooseTurn 30 50 = "RIGHT" := by
  exact ⟨(C9_turn_direction 50 30).1 (by decide),
         (C9_turn_direction 30 50).2.1 (by decide)⟩

/-- Claim C1, counterexample: safety is checked only at the top of the
cycle, so in the reachable execution where the IMU reports safe at the
check and flipped from the next sampling point on (front obstacle at
15 cm), the maneuver still issues the motion command BACKWARD while the
flip condition is detected. -/
theorem C1_counterexample :
    ¬ (∀ (env : ℕ → ImuFlags) (front left right : ℤ),
        ∀ p ∈ exploreCycle env front left right,
          isMotionCommand p.2 = true → unsafeFlags p.1 = false) := by
  intro h
  have hmem : (⟨⟨true, false⟩, "BACKWARD"⟩ : ImuFlags × String) ∈
      exploreCycle envFlipMidManeuver 15 50 30 := by decide
  have := h envFlipMidManeuver 15 50 30 _ hmem (by decide)
  exact absurd this (by decide)

/-- Claim C1 as amended: the Navigator checks the SafetyMonitor once at
the top of every control-loop cycle; any cycle whose check observes flip
or collision issues only STOP (no motion command), and when the flags do
not change during the cycle every command is issued with the flags safe.
Commands inside a multi-step avoidance maneuver, however, are issued
without re-checking, so a condition first detected mid-maneuver does not
block the remaining maneuver commands. -/
theorem C1_safety_gate_per_cycle (env : ℕ → ImuFlags) (front left right : ℤ) :
    (unsafeFlags (env 0) = true →
      ∀ p ∈ exploreCycle env front left right, p.2 = "STOP") ∧
    ((∀ n, env n = env 0) → unsafeFlags (env 0) = false →
      ∀ p ∈ exploreCycle env front left right, unsafeFlags p.1 = false) := by
  constructor
  · intro hu p hp
    by_cases hf : (env 0).flipped = true
    · simp only [exploreCycle, hf, if_true, List.mem_singleton] at hp
      simp [hp]
    · have hf' : (env 0).flipped = false := by
        revert hf; cases (env 0).flipped <;> simp
      have hc : (env 0).collision = true := by
        have h' := hu
        simp only [unsafeFlags, hf', Bool.false_or] at h'
        exact h'
      simp only [exploreCycle, hf', hc, Bool.false_eq_true, if_false, if_true,
        List.mem_singleton] at hp
      simp [hp]
  · intro hconst hsafe p hp
    have hall : ∀ n, unsafeFlags (env n) = false := fun n => by
      rw [hconst n]; exact hsafe
    rw [exploreCycle] at hp
    split_ifs at hp
    all_goals
      simp only [List.mem_cons, List.mem_singleton, List.not_mem_nil, or_false] at hp
    all_goals
      first
        | (obtain rfl := hp; exact hall _)
        | (obtain rfl | rfl := hp <;> exact hall _)
        | (obtain rfl | rfl | rfl | rfl | rfl := hp <;> exact hall _)

/-- Witness for C1's amended theorem: a cycle that observes a flip at its
top-of-cycle check sends STOP, and a fully safe cycle samples only safe
flags. -/
theorem C1_safety_gate_per_cycle_witness :
    ((⟨⟨true, false⟩, "STOP"⟩ : ImuFlags × String)).2 = "STOP" ∧
    unsafeFlags (⟨false, false⟩ : ImuFlags) = false := by
  constructor
  · exact (C1_safety_gate_per_cycle (fun _ => ⟨true, false⟩) 60 0 0).1 (by decide)
      ⟨⟨true, false⟩, "STOP"⟩ (by decide)
  · exact (C1_safety_gate_per_cycle (fun _ => ⟨false, false⟩) 60 0 0).2
      (fun _ => rfl) (by decide) ⟨⟨false, false⟩, "FORWARD"⟩ (by decide)

/-- Claim C2, counterexample: a measured front distance of 0 is strictly
below `OBSTACLE_STOP_DISTANCE`, yet the explore cycle at
front = left = right = 0 issues FORWARD with no STOP before it — the
source guards every obstacle branch with `dist > 0`, treating 0 as
unknown/clear. -/
theorem C2_counterexample :
    ¬ (∀ front left right : ℤ, front < OBSTACLE_STOP_DISTANCE →
        stopPrecedesForward (exploreCmds front left right)) := by
  intro h
  obtain ⟨m, hm, -⟩ := h 0 0 0 (by decide) 0 (by decide)
  omega

/-- Claim C2 as amended: in EXPLORE mode, for every measured front
distance strictly between 0 and `OBSTACLE_STOP_DISTANCE` the cycle's
first command is STOP (the avoidance maneuver begins) and every FORWARD
in the cycle trace — there is none — is preceded by a STOP; a front
reading of exactly 0 is excluded, being treated as no obstacle. -/
theorem C2_stop_before_forward (front left right : ℤ)
    (h1 : 0 < front) (h2 : front < OBSTACLE_STOP_DISTANCE) :
    (exploreCmds front left right).head? = some "STOP" ∧
    stopPrecedesForward (exploreCmds front left right) := by
  have hcmds : exploreCmds front left right =
      ["STOP", "BACKWARD", "STOP", chooseTurn left right, "STOP"] := by
    simp [exploreCmds, exploreCycle, h1, h2]
  rw [hcmds]
  refine ⟨rfl, ?_⟩
  intro n hn
  match n, hn with
  | 0, hn => simp at hn
  | 1, hn => simp at hn
  | 2, hn => simp at hn
  | 3, hn =>
    exfalso
    have hturn : chooseTurn left right = "FORWARD" := by simpa using hn
    unfold chooseTurn at hturn
    split at hturn <;> exact absurd hturn (by decide)
  | 4, hn => simp at hn
  | n + 5, hn => simp [List.get?] at hn

/-- Witness for C2's amended theorem at the spec scenario front = 15,
left = 50, right = 30. -/
theorem C2_stop_before_forward_witness :
    (exploreCmds 15 50 30).head? = some "STOP" := by
  exact (C2_stop_before_forward 15 50 30 (by decide) (by decide)).1

/-- Helper for C3: one event keeps the reconnect counter within the
bound. -/
theorem linkStep_count_le (e : LinkEvent) (s : LinkState)
    (h : s.reconnectCount ≤ MAX_RECONNECT_TRIES) :
    (linkStep e s).reconnectCount ≤ MAX_RECONNECT_TRIES := by
  cases e with
  | ioFailure => exact h
  | watchdogTick ok =>
    show (watchdogTick ok s).reconnectCount ≤ MAX_RECONNECT_TRIES
    unfold watchdogTick
    split
    · rename_i hcond
      cases ok
      · simpa using hcond.2
      · simp
    · exact h

/-- Helper for C3: any event sequence keeps the counter within the
bound. -/
theorem runEvents_count_le (evs : List LinkEvent) :
    ∀ s : LinkState, s.reconnectCount ≤ MAX_RECONNECT_TRIES →
      (runEvents evs s).reconnectCount ≤ MAX_RECONNECT_TRIES := by
  induction evs with
  | nil => intro s h; exact h
  | cons e evs ih => intro s h; exact ih (linkStep e s) (linkStep_count_le e s h)

/-- Helper for C3: an exhausted, disconnected link is a fixed point of
every event. -/
theorem linkStep_exhausted (s : LinkState) (hc : s.connected = false)
    (hn : s.reconnectCount = MAX_RECONNECT_TRIES) (e : LinkEvent) :
    linkStep e s = s := by
  cases e with
  | ioFailure =>
    show (⟨false, s.reconnectCount⟩ : LinkState) = s
    rw [← hc]
  | watchdogTick ok =>
    show watchdogTick ok s = s
    unfold watchdogTick
    exact if_neg (fun hcond => Nat.lt_irrefl _ (hn ▸ hcond.2))

/-- Helper for C3: an exhausted, disconnected link never changes again. -/
theorem runEvents_exhausted (s : LinkState) (hc : s.connected = false)
    (hn : s.reconnectCount = MAX_RECONNECT_TRIES) :
    ∀ evs, runEvents evs s = s := by
  intro evs
  induction evs with
  | nil => rfl
  | cons e evs ih =>
    calc runEvents (e :: evs) s = runEvents evs (linkStep e s) := rfl
    _ = runEvents evs s := by rw [linkStep_exhausted s hc hn e]
    _ = s := ih

/-- Claim C3: from initialisation, the reconnect counter never exceeds
`MAX_RECONNECT_TRIES` under any event sequence; while the link is down
with tries remaining, the watchdog attempts a reconnect and a successful
connect sets `connected = true` with the counter reset to 0; and once the
counter has reached `MAX_RECONNECT_TRIES` without success, the watchdog
never attempts again and the link state stays permanently disconnected
under every further event sequence. -/
theorem C3_reconnect_discipline :
    (∀ (c0 : Bool) (evs : List LinkEvent),
      (runEvents evs (initLinkState c0)).reconnectCount ≤ MAX_RECONNECT_TRIES) ∧
    (∀ s : LinkState, s.connected = false →
      s.reconnectCount < MAX_RECONNECT_TRIES →
      watchdogAttempts s = true ∧ watchdogTick true s = ⟨true, 0⟩) ∧
    (∀ s : LinkState, s.connected = false →
      s.reconnectCount = MAX_RECONNECT_TRIES →
      watchdogAttempts s = false ∧ ∀ evs, runEvents evs s = s) := by
  refine ⟨?_, ?_, ?_⟩
  · intro c0 evs
    exact runEvents_count_le evs (initLinkState c0) (Nat.zero_le _)
  · intro s hc hlt
    constructor
    · simp [watchdogAttempts, hc, hlt]
    · unfold watchdogTick
      rw [if_pos ⟨hc, hlt⟩]
      rfl
  · intro s hc heq
    refine ⟨?_, runEvents_exhausted s hc heq⟩
    simp [watchdogAttempts, heq]

/-- Witness for C3: ten failed attempts from a fresh disconnected link,
a mid-flight successful reconnect, and the exhausted state surviving
further events unchanged. -/
theorem C3_reconnect_discipline_witness :
    (runEvents [LinkEvent.watchdogTick false, LinkEvent.ioFailure,
        LinkEvent.watchdogTick true] (initLinkState false)).reconnectCount
      ≤ MAX_RECONNECT_TRIES ∧
    watchdogTick true ⟨false, 3⟩ = ⟨true, 0⟩ ∧
    runEvents [LinkEvent.watchdogTick true, LinkEvent.ioFailure]
      ⟨false, 10⟩ = ⟨false, 10⟩ := by
  refine ⟨C3_reconnect_discipline.1 false _,
          (C3_reconnect_discipline.2.1 ⟨false, 3⟩ rfl (by decide)).2,
          (C3_reconnect_discipline.2.2 ⟨false, 10⟩ rfl rfl).2 _⟩

/-- Helper for C4: when no line in the queue or the remaining schedule
carries the expected text at the start, the poll loop returns `none`. -/
theorem queryPollResult_no_match (pfx : String) :
    ∀ (schedule : List (List String)) (q : List String),
      (∀ l ∈ q, pyStartsWith l pfx = false) →
      (∀ b ∈ schedule, ∀ l ∈ b, pyStartsWith l pfx = false) →
      queryPollResult pfx schedule q = none := by
  intro schedule
  induction schedule with
  | nil => intro q _ _; rfl
  | cons batch rest ih =>
    intro q hq hs
    have hqb : ∀ l ∈ q ++ batch, pyStartsWith l pfx = false := by
      intro l hl
      rcases List.mem_append.mp hl with h | h
      · exact hq l h
      · exact hs batch (List.mem_cons_self _ _) l h
    have hrest : ∀ b ∈ rest, ∀ l ∈ b, pyStartsWith l pfx = false :=
      fun b hb => hs b (List.mem_cons_of_mem _ hb)
    rw [queryPollResult]
    rcases hcase : q ++ batch with - | ⟨line, q'⟩
    · exact ih [] (by simp) hrest
    · have hline : pyStartsWith line pfx = false :=
        hqb line (by rw [hcase]; exact List.mem_cons_self _ _)
      have hq' : ∀ l ∈ q', pyStartsWith l pfx = false := fun l hl =>
        hqb l (by rw [hcase]; exact List.mem_cons_of_mem _ hl)
      simp only [hline, Bool.false_eq_true, if_false]
      exact ih q' hq' hrest

/-- Helper for C4: the poll loop runs at most one iteration per schedule
slot, i.e. it never outlives the deadline by more than the final poll. -/
theorem queryPollTicks_le (pfx : String) :
    ∀ (schedule : List (List String)) (q : List String),
      queryPollTicks pfx schedule q ≤ schedule.length := by
  intro schedule
  induction schedule with
  | nil => intro q; exact Nat.le_refl 0
  | cons batch rest ih =>
    intro q
    rw [queryPollTicks]
    rcases q ++ batch with - | ⟨line, q'⟩
    · exact Nat.succ_le_succ (ih [])
    · by_cases hline : pyStartsWith line pfx = true
      · simp only [hline, if_true, List.length_cons]
        exact Nat.succ_le_succ (Nat.zero_le _)
      · simp only [hline, if_false, List.length_cons]
        exact Nat.succ_le_succ (ih q')

/-- Claim C4: when no inbound line with the expected text at the start
arrives within the timeout (= the poll schedule), `_query_motor` returns
`None`, and the poll loop executes at most one iteration per 0.01 s slot
of the timeout, so it cannot block past the deadline plus one poll
interval; in that case the hardware-generation `get_distance_front` and
the legacy `get_distance` both supply the safe default 0. -/
theorem C4_query_timeout :
    (∀ (connected : Bool) (pfx : String) (schedule : List (List String)),
      (∀ b ∈ schedule, ∀ l ∈ b, pyStartsWith l pfx = false) →
      query_motor connected pfx schedule = none ∧
      queryPollTicks pfx schedule [] ≤ schedule.length) ∧
    (∀ (connected : Bool) (schedule : List (List String)),
      (∀ b ∈ schedule, ∀ l ∈ b, pyStartsWith l "DIST:" = false) →
      get_distance connected schedule = 0) ∧
    (∀ (connected : Bool) (schedule : List (List String)),
      (∀ b ∈ schedule, ∀ l ∈ b, pyStartsWith l "DIST_F:" = false) →
      get_distance_front connected schedule = some 0) := by
  refine ⟨?_, ?_, ?_⟩
  · intro connected pfx schedule h
    refine ⟨?_, queryPollTicks_le pfx schedule []⟩
    cases connected with
    | false => rfl
    | true =>
      unfold query_motor
      rw [if_neg (by simp)]
      exact queryPollResult_no_match pfx schedule [] (by simp) h
  · intro connected schedule h
    cases connected with
    | false => rfl
    | true =>
      unfold get_distance
      rw [if_neg (by simp), queryPollResult_no_match "DIST:" schedule [] (by simp) h]
  · intro connected schedule h
    cases connected with
    | false => rfl
    | true =>
      unfold get_distance_front query_motor
      rw [if_neg (by simp),
        queryPollResult_no_match "DIST_F:" schedule [] (by simp) h]

/-- Witness for C4: a 3-slot schedule (≈ the 1 s timeout of the spec
scenario in poll units) with only non-matching traffic: the query is
absent, the loop stops within the schedule, and both getters return 0. -/
theorem C4_query_timeout_witness :
    query_motor true "DIST:" [["OK"], [], ["X1"]] = none ∧
    queryPollTicks "DIST:" [["OK"], [], ["X1"]] [] ≤ 3 ∧
    get_distance true [["OK"], [], ["X1"]] = 0 ∧
    get_distance_front true [["READY"]] = some 0 := by
  refine ⟨(C4_query_timeout.1 true "DIST:" _ (by decide)).1,
          (C4_query_timeout.1 true "DIST:" [["OK"], [], ["X1"]] (by decide)).2,
          C4_query_timeout.2.1 true _ (by decide),
          C4_query_timeout.2.2 true _ (by decide)⟩

end TacticalRobml
